import Mathlib

/-!
Verification development for the schwab-trader repository.

The Python sources (`schwab/streaming.py`, `schwab/portfolio.py`) are shallowly
embedded below.  Python dicts become insertion-ordered association lists
(assignment replaces an existing key in place, otherwise appends), Python
`Decimal` arithmetic is modelled by exact rationals (every arithmetic operation
appearing in the concrete instances below is exact well inside Decimal's
default 28-significant-digit context), network calls become explicit
parameters (`fetch`, pre-fetched response lists), and raised exceptions become
`Except` values.  Callback invocation and outbound protocol requests are made
observable by returning explicit event lists.
-/

namespace SchwabTrader

/- ## Association-list model of Python dict -/

section AListDefs

variable {α : Type} {β : Type} [DecidableEq α]

/-- Python `d[k]` / `k in d`: first (only) binding for `k`. -/
def alookup : List (α × β) → α → Option β
  | [], _ => none
  | (k, v) :: t, a => if k = a then some v else alookup t a

/-- Python `d[k] = v`: replace an existing binding in place, else append. -/
def ainsert : List (α × β) → α → β → List (α × β)
  | [], a, b => [(a, b)]
  | (k, v) :: t, a, b => if k = a then (a, b) :: t else (k, v) :: ainsert t a b

/-- Python `d.keys()` in insertion order. -/
def akeys (m : List (α × β)) : List α := m.map Prod.fst

/-- Repeated dict assignment from a list of key/value pairs, left to right. -/
def afoldIns (m : List (α × β)) (ps : List (α × β)) : List (α × β) :=
  ps.foldl (fun acc p => ainsert acc p.1 p.2) m

/-- The value of the last pair of `ps` carrying key `k`, if any. -/
def lastVal : List (α × β) → α → Option β
  | [], _ => none
  | p :: t, k =>
    match lastVal t k with
    | some v => some v
    | none => if p.1 = k then some p.2 else none

end AListDefs

/- ## schwab/streaming.py -/

namespace Streaming

/-- The per-service entry of `SchwabStreamer.subscriptions`:
`{"symbols": [...], "fields": [...]}`. -/
structure SubInfo where
  symbols : List String
  fields : List Nat
deriving DecidableEq, Repr

/-- An outbound streamer request, as far as the claims are concerned:
a SUBS command with its service, keys and fields parameters. -/
structure StreamReq where
  service : String
  keys : List String
  fields : List Nat
deriving DecidableEq, Repr

/-- The subscription-tracking state of one `SchwabStreamer` instance. -/
structure StreamerState where
  subscriptions : List (String × SubInfo)
  is_connected : Bool
deriving DecidableEq, Repr

/-- `SchwabStreamer.__init__`: empty subscription map, not connected. -/
def freshStreamer : StreamerState :=
  { subscriptions := [], is_connected := false }

/-- `SchwabStreamer.subscribe_quote`: default fields `range(52)` when the
argument is `None` or empty, send one SUBS request, then record the
subscription under service `"QUOTE"`. -/
def subscribe_quote (st : StreamerState) (symbols : List String)
    (fieldsArg : Option (List Nat)) : StreamerState × StreamReq :=
  let fields := match fieldsArg with
    | none => List.range 52
    | some [] => List.range 52
    | some fs => fs
  let req : StreamReq := { service := "QUOTE", keys := symbols, fields := fields }
  ({ st with subscriptions :=
      ainsert st.subscriptions "QUOTE" { symbols := symbols, fields := fields } },
   req)

/-- `SchwabStreamer.subscribe_option`: default fields `range(41)`, service
`"OPTION"`. -/
def subscribe_option (st : StreamerState) (symbols : List String)
    (fieldsArg : Option (List Nat)) : StreamerState × StreamReq :=
  let fields := match fieldsArg with
    | none => List.range 41
    | some [] => List.range 41
    | some fs => fs
  let req : StreamReq := { service := "OPTION", keys := symbols, fields := fields }
  ({ st with subscriptions :=
      ainsert st.subscriptions "OPTION" { symbols := symbols, fields := fields } },
   req)

/-- The state of a `StreamerClient` (the reconnecting supervisor): its
current `SchwabStreamer`, if any. -/
structure ClientState where
  streamer : Option StreamerState
  running : Bool
deriving DecidableEq, Repr

/-- `StreamerClient._restore_subscriptions`: iterate a copy of the current
streamer's subscription map; for `"QUOTE"` and `"OPTION"` entries call the
corresponding subscribe method (other services are not handled). -/
def restore_subscriptions (c : ClientState) : ClientState × List StreamReq :=
  match c.streamer with
  | none => (c, [])
  | some s =>
    let step := fun (acc : StreamerState × List StreamReq) (p : String × SubInfo) =>
      if p.1 = "QUOTE" then
        let r := subscribe_quote acc.1 p.2.symbols (some p.2.fields)
        (r.1, acc.2 ++ [r.2])
      else if p.1 = "OPTION" then
        let r := subscribe_option acc.1 p.2.symbols (some p.2.fields)
        (r.1, acc.2 ++ [r.2])
      else acc
    let res := s.subscriptions.foldl step (s, [])
    ({ c with streamer := some res.1 }, res.2)

/-- One pass of `StreamerClient._reconnect_loop`'s body: when the wrapped
streamer is absent or reports not-connected, `_connect` builds a brand-new
`SchwabStreamer` (whose subscription map starts empty) and, if its
`connect()` succeeds, `_restore_subscriptions` replays from that new
streamer's map. -/
def reconnect_tick (connect_succeeds : Bool) (c : ClientState) :
    ClientState × List StreamReq :=
  let disconnected := match c.streamer with
    | none => true
    | some s => !s.is_connected
  if disconnected then
    let c' : ClientState :=
      { c with streamer := some { freshStreamer with is_connected := connect_succeeds } }
    if connect_succeeds then restore_subscriptions c' else (c', [])
  else (c, [])

/-- A supervisor state observed right after a connection drop: one QUOTE
subscription for AAPL with fields 0 and 1 was tracked on the dropped
connection. -/
def dropped_client : ClientState :=
  { streamer := some
      { subscriptions := [("QUOTE", { symbols := ["AAPL"], fields := [0, 1] })],
        is_connected := false },
    running := true }

/-- The subscriptions tracked on `dropped_client`'s connection before the drop. -/
def dropped_client_subs : List (String × SubInfo) :=
  match dropped_client.streamer with
  | some s => s.subscriptions
  | none => []

/- ### `SchwabStreamer._handle_data` (dispatch of inbound data frames) -/

/-- The `content` of one data frame: a list of field-keyed records. -/
abbrev Content := List (List (String × String))

/-- One entry of a frame's `data` list. -/
structure DataFrame where
  service : String
  content : Content
deriving DecidableEq, Repr

/-- A registered callback: an identity plus its behaviour on a content list
(`Except.error` models the callback raising). -/
structure Callback where
  cbId : Nat
  run : Content → Except String Unit

/-- The observable outcome of dispatching frames: every callback invocation
(callback id, service, content it was handed) and every caught-and-logged
callback exception, in order. -/
structure DispatchLog where
  invoked : List (Nat × String × Content)
  errors : List String
deriving DecidableEq, Repr

/-- Concatenation of dispatch logs. -/
def DispatchLog.append (a b : DispatchLog) : DispatchLog :=
  { invoked := a.invoked ++ b.invoked, errors := a.errors ++ b.errors }

/-- The inner loop of `_handle_data` for one frame: look up the callbacks
registered for the frame's service; call each one with the frame's content,
catching a raised exception into the error log and carrying on. -/
def dispatchFrame (callbackMap : List (String × List Callback)) (f : DataFrame) :
    DispatchLog :=
  match alookup callbackMap f.service with
  | none => { invoked := [], errors := [] }
  | some cbs =>
    { invoked := cbs.map fun cb => (cb.cbId, f.service, f.content),
      errors := cbs.filterMap fun cb =>
        match cb.run f.content with
        | Except.ok _ => none
        | Except.error e => some e }

/-- `SchwabStreamer._handle_data` over a frame list (the whole `data` value of
an inbound message, or several of them in receive-loop order): a total
function — no callback exception escapes. -/
def handle_data (callbackMap : List (String × List Callback))
    (frames : List DataFrame) : DispatchLog :=
  frames.foldl (fun log f => log.append (dispatchFrame callbackMap f))
    { invoked := [], errors := [] }

end Streaming

/- ## schwab/portfolio.py : data model -/

namespace Portfolio

/-- Order `Status` values used by `portfolio.py` (the generated enum's
members relevant here; `working` is the only non-terminal one per the spec). -/
inductive Status where
  | working
  | filled
  | canceled
  | rejected
  | pendingActivation
  | expired
deriving DecidableEq, Repr

/-- An `ExecutionLeg` of an order activity, with the fields the spec's
Execution record draws from. -/
structure ExecLeg where
  legId : Nat
  price : ℚ
  quantity : ℚ
  time : Nat
deriving DecidableEq, Repr

/-- An `OrderActivity`: `_update_order` only looks at `activity_type` and
`execution_legs`. -/
structure OrderActivity where
  activity_type : String
  activityId : Nat
  execution_legs : List ExecLeg
deriving DecidableEq, Repr

/-- An `Order`, with the fields `portfolio.py` reads: `order_id`, `status`,
`order_type`, `quantity`, `order_activity_collection`. -/
structure Order where
  order_id : Int
  status : Status
  order_type : String
  quantity : ℚ
  order_activity_collection : List OrderActivity
deriving DecidableEq, Repr

/-- An `ExecutionReport` as stored in the ledger's executions map. -/
structure ExecutionReport where
  execution_id : String
  order_id : Int
  price : ℚ
  quantity : ℚ
  time : Nat
deriving DecidableEq, Repr

/-- Modelled from the spec: `ExecutionReport.from_activity` lives in
`schwab/models/execution.py`, which is not among the sources here; only its
caller `PortfolioManager._handle_execution` is.  Spec section 3: an Execution
carries "execution id, originating order id, leg reference, price, quantity,
timestamp", is "unique per id" and is synthesized deterministically, "one
Execution record per execution leg".  The execution id is therefore a
deterministic function of the order, activity and leg identities. -/
def ExecutionReport.from_activity (order_id : Int) (activity : OrderActivity)
    (leg : ExecLeg) : ExecutionReport :=
  { execution_id :=
      toString order_id ++ "-" ++ toString activity.activityId ++ "-" ++ toString leg.legId,
    order_id := order_id,
    price := leg.price,
    quantity := leg.quantity,
    time := leg.time }

/-- The nested `root` object of an instrument.  `Option (Option String)`
distinguishes an absent attribute (`none`, `hasattr` false) from an attribute
present with Python `None` (`some none`). -/
structure InstrumentRoot where
  symbol : Option (Option String)
  asset_type : Option String
deriving DecidableEq, Repr

/-- A position's `instrument`, with the attributes `portfolio.py` probes. -/
structure Instrument where
  symbol : Option (Option String)
  root : Option InstrumentRoot
  description : Option String
  cusip : Option String
  asset_type : Option String
  type : Option String
  last_price : Option ℚ
deriving DecidableEq, Repr

/-- A `Position`, with the fields `portfolio.py` reads (`none` models an
absent or `None` attribute; `_extract_decimal_field` then yields the
default `0`). -/
structure Position where
  instrument : Option Instrument
  long_quantity : Option ℚ
  short_quantity : Option ℚ
  average_price : Option ℚ
  market_value : Option ℚ
deriving DecidableEq, Repr

/-- The balance object reachable as `securities_account.current_balances`. -/
structure Balances where
  available_funds : Option ℚ
  cash_available_for_trading : Option ℚ
  total_cash : Option ℚ
deriving DecidableEq, Repr

/-- `account.securities_account`. -/
structure SecuritiesAccount where
  type : Option String
  current_balances : Option Balances
  positions : Option (List Position)
deriving DecidableEq, Repr

/-- An `Account` snapshot as returned by `client.get_account`. -/
structure Account where
  securities_account : Option SecuritiesAccount
deriving DecidableEq, Repr

/-- The positions list the refresh/add paths read off a snapshot:
`getattr(account, "securities_account", None)` then
`getattr(sec_acct, "positions", [])` (absent or `None` gives `[]`). -/
def positions_list_of (a : Account) : List Position :=
  match a.securities_account with
  | none => []
  | some sa => sa.positions.getD []

/-- The first whitespace-separated token of a free-text description;
`desc.split()[0]` raises on an all-whitespace string, which the caller's
`except` turns into no symbol. -/
def firstToken (s : String) : Option String :=
  match (s.split Char.isWhitespace).filter (fun t => t ≠ "") with
  | [] => none
  | t :: _ => some t

/-- `PortfolioManager._extract_symbol_from_position`: direct
`instrument.symbol` when the attribute exists (even if its value is `None`),
else `instrument.root.symbol` when both attributes exist, else the first
token of a truthy `description`, else a CUSIP-prefixed pseudo-symbol. -/
def extract_symbol_from_position (p : Position) : Option String :=
  match p.instrument with
  | none => none
  | some inst =>
    match inst.symbol with
    | some v => v
    | none =>
      let rootSym : Option (Option String) :=
        match inst.root with
        | some r => r.symbol
        | none => none
      match rootSym with
      | some v => v
      | none =>
        match inst.description with
        | some d =>
          if d ≠ "" then firstToken d
          else match inst.cusip with
            | some c => if c ≠ "" then some ("CUSIP:" ++ c) else none
            | none => none
        | none =>
          match inst.cusip with
          | some c => if c ≠ "" then some ("CUSIP:" ++ c) else none
          | none => none

/-- The symbol under which a position is stored, if any: the extraction
result when it is truthy (`if symbol:` drops `None` and the empty string). -/
def good_symbol (p : Position) : Option String :=
  match extract_symbol_from_position p with
  | some s => if s = "" then none else some s
  | none => none

/-- The position-map construction loop shared by `add_account`,
`refresh_positions` and `update`: start from `{}` and store each position
whose extracted symbol is truthy. -/
def build_position_map (ps : List Position) : List (String × Position) :=
  ps.foldl
    (fun m p =>
      match good_symbol p with
      | some s => ainsert m s p
      | none => m)
    []

/-- The symbols extracted from a snapshot (in list order, possibly with
repeats when two positions share a symbol). -/
def extracted_symbols (a : Account) : List String :=
  (positions_list_of a).filterMap good_symbol

/-- The ledger state of a `PortfolioManager` (the maps guarded by its lock,
plus the monitoring bookkeeping; callbacks are tracked by numeric identity). -/
structure PMState where
  accounts : List (String × Account)
  positions : List (String × List (String × Position))
  orders : List (Int × Order)
  executions : List (String × ExecutionReport)
  order_callbacks : List (Int × List Nat)
  monitored_orders : List Int
  monitored_accounts : List String
  monitoring : Bool
  is_paper_trading_client : Bool
deriving DecidableEq, Repr

/-- The empty ledger produced by `PortfolioManager.__init__` (no persisted
state). -/
def initState (paper : Bool) : PMState :=
  { accounts := [], positions := [], orders := [], executions := [],
    order_callbacks := [], monitored_orders := [], monitored_accounts := [],
    monitoring := false, is_paper_trading_client := paper }

/- ## schwab/portfolio.py : operations -/

/-- `PortfolioManager.add_account`: return immediately when the account is
already tracked (no Transport contact); otherwise fetch the snapshot (an
exception propagates with no state change), store the account, build its
position map and mark it monitored.  The boolean reports whether Transport
was contacted. -/
def add_account (fetch : String → Except Unit Account) (st : PMState)
    (account_number : String) : Except Unit PMState × Bool :=
  if (alookup st.accounts account_number).isSome then
    (Except.ok st, false)
  else
    match fetch account_number with
    | Except.error u => (Except.error u, true)
    | Except.ok account =>
      (Except.ok
        { st with
          accounts := ainsert st.accounts account_number account,
          positions := ainsert st.positions account_number
            (build_position_map (positions_list_of account)),
          monitored_accounts :=
            if account_number ∈ st.monitored_accounts then st.monitored_accounts
            else st.monitored_accounts ++ [account_number] },
       true)

/-- The per-account body of `refresh_positions`: on a successful fetch,
replace the stored account and rebuild its position map from scratch; a
fetch exception is caught and logged, leaving the state untouched. -/
def refresh_one (fetch : String → Except Unit Account) (st : PMState)
    (account_number : String) : PMState :=
  match fetch account_number with
  | Except.error _ => st
  | Except.ok account =>
    { st with
      accounts := ainsert st.accounts account_number account,
      positions := ainsert st.positions account_number
        (build_position_map (positions_list_of account)) }

/-- The loop of `refresh_positions` over a given key list. -/
def refresh_fold (fetch : String → Except Unit Account)
    (keyList : List String) (st : PMState) : PMState :=
  keyList.foldl (refresh_one fetch) st

/-- `PortfolioManager.refresh_positions`: iterate every tracked account. -/
def refresh_positions (fetch : String → Except Unit Account) (st : PMState) :
    PMState :=
  refresh_fold fetch (akeys st.accounts) st

/-- `PortfolioManager._handle_execution`: one `ExecutionReport` per execution
leg, stored into the executions map under its execution id. -/
def handle_execution (order : Order) (activity : OrderActivity)
    (execs : List (String × ExecutionReport)) : List (String × ExecutionReport) :=
  activity.execution_legs.foldl
    (fun e leg =>
      let r := ExecutionReport.from_activity order.order_id activity leg
      ainsert e r.execution_id r)
    execs

/-- The execution id / report pairs one order's refresh writes: every
`EXECUTION` activity contributes one pair per leg. -/
def execution_pairs (order : Order) : List (String × ExecutionReport) :=
  (order.order_activity_collection.filter
      (fun a => a.activity_type = "EXECUTION")).flatMap
    (fun a => a.execution_legs.map (fun leg =>
      let r := ExecutionReport.from_activity order.order_id a leg
      (r.execution_id, r)))

/-- `PortfolioManager._handle_status_change`: notify every callback
registered for the order's id, in registration order (a raising callback is
caught and logged).  Each firing is reported as
(callback id, order id, new status). -/
def fire_status_callbacks (st : PMState) (order : Order) :
    List (Nat × Int × Status) :=
  match alookup st.order_callbacks order.order_id with
  | none => []
  | some cbs => cbs.map (fun c => (c, order.order_id, order.status))

/-- The outcome of one `_update_order` call: the new state, the callback
firings it produced, and the status transition it recorded (if any). -/
structure UpdateOutcome where
  state : PMState
  fired : List (Nat × Int × Status)
  recorded : Option (Status × Status)
deriving DecidableEq, Repr

/-- `PortfolioManager._update_order` with the `client.get_order` response
made explicit: a fetch exception is caught with no state change; otherwise
the fetched order replaces the stored one, a status change (relative to the
previously stored status, whatever it was) fires the callbacks, and every
`EXECUTION` activity of the fetched order is folded into the executions
map. -/
def update_order (fetched : Except Unit Order) (st : PMState) (order_id : Int) :
    UpdateOutcome :=
  match fetched with
  | Except.error _ => { state := st, fired := [], recorded := none }
  | Except.ok order =>
    let prev := (alookup st.orders order_id).map Order.status
    let orders' := ainsert st.orders order_id order
    let fired := match prev with
      | some p => if order.status ≠ p then fire_status_callbacks st order else []
      | none => []
    let recorded := match prev with
      | some p => if order.status ≠ p then some (p, order.status) else none
      | none => none
    let execs' := order.order_activity_collection.foldl
      (fun e a => if a.activity_type = "EXECUTION" then handle_execution order a e else e)
      st.executions
    { state := { st with orders := orders', executions := execs' },
      fired := fired, recorded := recorded }

/-- The Transport calls `place_order` can make, in order. -/
inductive ClientCall where
  | placeOrder (account_number : String)
  | getOrders (account_number : String)
deriving DecidableEq, Repr

instance {ε α : Type} [DecidableEq ε] [DecidableEq α] : DecidableEq (Except ε α) :=
  fun x y =>
    match x, y with
    | Except.ok a, Except.ok b =>
      if h : a = b then isTrue (by rw [h])
      else isFalse (by intro hh; cases hh; exact h rfl)
    | Except.error a, Except.error b =>
      if h : a = b then isTrue (by rw [h])
      else isFalse (by intro hh; cases hh; exact h rfl)
    | Except.ok _, Except.error _ => isFalse (by intro hh; cases hh)
    | Except.error _, Except.ok _ => isFalse (by intro hh; cases hh)

/-- The observable outcome of `PortfolioManager.place_order`. -/
structure PlaceOutcome where
  state : PMState
  calls : List ClientCall
  warned : Bool
  result : Except String Int
deriving DecidableEq, Repr

/-- `PortfolioManager.place_order` with the Transport responses made
explicit (`recent_orders` is what `get_orders` returns for the trailing
5-minute window): raise `ValueError` before any Transport call when the
account is untracked or (for a paper client) not a paper account; otherwise
submit, search the recent orders for the first entry matching on order type
and quantity, and either warn and return the sentinel id 0 or store the
match and return its order id. -/
def place_order (st : PMState) (account_number : String) (order : Order)
    (is_paper_account : String → Bool) (recent_orders : List Order) :
    PlaceOutcome :=
  if (alookup st.accounts account_number).isNone then
    { state := st, calls := [], warned := false,
      result := Except.error "Account not in portfolio" }
  else if st.is_paper_trading_client && !is_paper_account account_number then
    { state := st, calls := [], warned := false,
      result := Except.error "Cannot use non-paper account with paper trading client" }
  else
    let calls := [ClientCall.placeOrder account_number, ClientCall.getOrders account_number]
    match recent_orders.find? (fun o =>
        o.order_type == order.order_type && o.quantity == order.quantity) with
    | none =>
      { state := st, calls := calls, warned := true, result := Except.ok 0 }
    | some placed =>
      { state :=
          { st with
            orders := ainsert st.orders placed.order_id placed,
            monitored_orders :=
              if placed.order_id ∈ st.monitored_orders then st.monitored_orders
              else st.monitored_orders ++ [placed.order_id],
            monitoring := true },
        calls := calls, warned := false, result := Except.ok placed.order_id }

/- ## schwab/portfolio.py : get_portfolio_summary -/

/-- `PortfolioManager._extract_account_cash_balance`: MARGIN accounts use
`available_funds`, CASH accounts use `cash_available_for_trading` with a
`total_cash` fallback; anything else yields 0. -/
def extract_account_cash_balance (account : Account) : ℚ :=
  match account.securities_account with
  | none => 0
  | some sa =>
    match sa.type with
    | none => 0
    | some t =>
      if t = "MARGIN" then
        match sa.current_balances with
        | some b => b.available_funds.getD 0
        | none => 0
      else if t = "CASH" then
        match sa.current_balances with
        | some b =>
          match b.cash_available_for_trading with
          | some v => v
          | none => b.total_cash.getD 0
        | none => 0
      else 0

/-- The normalization map applied at the end of `_determine_asset_type`. -/
def asset_type_mapping (t : String) : String :=
  if t = "COMMON_STOCK" then "EQUITY"
  else if t = "PREFERRED_STOCK" then "EQUITY"
  else if t = "ETF" then "EQUITY"
  else if t = "BOND" then "FIXED_INCOME"
  else if t = "GOVERNMENT_BOND" then "FIXED_INCOME"
  else if t = "CORPORATE_BOND" then "FIXED_INCOME"
  else if t = "FUND" then "MUTUAL_FUND"
  else t

/-- Python `str.upper` on the ASCII asset-type strings involved (character
by character, as `.upper()` behaves on ASCII input). -/
def str_upper (s : String) : String := ⟨s.data.map Char.toUpper⟩

/-- `PortfolioManager._determine_asset_type`: probe `instrument.asset_type`,
then `instrument.type`, then `instrument.root.asset_type`, defaulting to
EQUITY, then uppercase and normalize. -/
def determine_asset_type (p : Position) : String :=
  let raw :=
    match p.instrument with
    | none => "EQUITY"
    | some inst =>
      match inst.asset_type with
      | some a => a
      | none =>
        match inst.type with
        | some t => t
        | none =>
          match inst.root with
          | some r => r.asset_type.getD "EQUITY"
          | none => "EQUITY"
  asset_type_mapping (str_upper raw)

/-- The market value `get_portfolio_summary` uses for a position: the
snapshot value, or — when that is non-positive and the net quantity and a
positive `last_price` are known — net quantity times last price. -/
def position_market_value (p : Position) : ℚ :=
  let mv := p.market_value.getD 0
  if mv ≤ 0 then
    let net := p.long_quantity.getD 0 - p.short_quantity.getD 0
    if net ≠ 0 then
      let lastp := match p.instrument with
        | some inst => inst.last_price.getD 0
        | none => 0
      if lastp > 0 then net * lastp else mv
    else mv
  else mv

/-- One per-symbol aggregate of `positions_by_symbol`. -/
structure SymbolAgg where
  quantity : ℚ
  market_value : ℚ
  cost_basis : ℚ
  gain_loss : ℚ
  gain_loss_pct : ℚ
  average_price : ℚ
deriving DecidableEq, Repr

/-- The zero-initialised aggregate created when a symbol is first seen. -/
def emptyAgg : SymbolAgg :=
  { quantity := 0, market_value := 0, cost_basis := 0,
    gain_loss := 0, gain_loss_pct := 0, average_price := 0 }

/-- The running accumulator of the per-account position loop. -/
structure PosAcc where
  account_equity : ℚ
  by_symbol : List (String × SymbolAgg)
  by_asset : List (String × ℚ)
deriving DecidableEq, Repr

/-- The body of `get_portfolio_summary`'s position loop: skip non-positive
market values; otherwise accumulate into the symbol aggregate (quantity and
market value and cost basis add up, average price is overwritten, gain/loss
and its percent are overwritten from this position alone when its cost basis
is positive) and into the asset-class totals. -/
def process_position (acc : PosAcc) (symbol : String) (p : Position) : PosAcc :=
  let mv := position_market_value p
  if mv ≤ 0 then acc
  else
    let cur := (alookup acc.by_symbol symbol).getD emptyAgg
    let longq := p.long_quantity.getD 0
    let shortq := p.short_quantity.getD 0
    let net := longq - shortq
    let avg := p.average_price.getD 0
    let cost := avg * longq
    let agg1 : SymbolAgg :=
      { cur with
        quantity := cur.quantity + net,
        market_value := cur.market_value + mv,
        average_price := avg,
        cost_basis := cur.cost_basis + cost }
    let agg2 :=
      if cost > 0 then
        { agg1 with gain_loss := mv - cost, gain_loss_pct := (mv - cost) / cost * 100 }
      else agg1
    let atype := determine_asset_type p
    { account_equity := acc.account_equity + mv,
      by_symbol := ainsert acc.by_symbol symbol agg2,
      by_asset := ainsert acc.by_asset atype ((alookup acc.by_asset atype).getD 0 + mv) }

/-- The running accumulator of `get_portfolio_summary`'s account loop. -/
structure SummaryAcc where
  total_equity : ℚ
  total_cash : ℚ
  by_symbol : List (String × SymbolAgg)
  by_asset : List (String × ℚ)
deriving DecidableEq, Repr

/-- The body of the account loop: add the account's cash, then (when it has
a non-empty position map) run the position loop and add the resulting
account equity. -/
def process_account (positionsMap : List (String × List (String × Position)))
    (acc : SummaryAcc) (entry : String × Account) : SummaryAcc :=
  let cash := extract_account_cash_balance entry.2
  let acc1 := { acc with total_cash := acc.total_cash + cash }
  match alookup positionsMap entry.1 with
  | none => acc1
  | some ps =>
    if ps = [] then acc1
    else
      let r := ps.foldl (fun pa sp => process_position pa sp.1 sp.2)
        { account_equity := 0, by_symbol := acc1.by_symbol, by_asset := acc1.by_asset }
      { total_equity := acc1.total_equity + r.account_equity,
        total_cash := acc1.total_cash,
        by_symbol := r.by_symbol,
        by_asset := r.by_asset }

/-- `Decimal.quantize` at two places under the default ROUND_HALF_EVEN. -/
def quantize2 (q : ℚ) : ℚ :=
  let x := q * 100
  let f : ℤ := Int.floor x
  let r := x - (f : ℚ)
  let n : ℤ :=
    if r < 1 / 2 then f
    else if r > 1 / 2 then f + 1
    else if f % 2 = 0 then f else f + 1
  (n : ℚ) / 100

/-- The dictionary `get_portfolio_summary` returns. -/
structure PortfolioSummary where
  total_value : ℚ
  total_equity : ℚ
  total_cash : ℚ
  cash_allocation : ℚ
  equity_allocation : ℚ
  positions_by_symbol : List (String × SymbolAgg)
  asset_allocation : List (String × ℚ)
  open_orders : Nat
  filled_orders : Nat
  total_orders : Nat
  total_executions : Nat
deriving DecidableEq, Repr

/-- The pure computation of `get_portfolio_summary` on the current ledger
state (after the optional pre-refresh). -/
def compute_summary (st : PMState) : PortfolioSummary :=
  let init : SummaryAcc :=
    { total_equity := 0, total_cash := 0, by_symbol := [],
      by_asset := [("EQUITY", 0), ("OPTION", 0), ("MUTUAL_FUND", 0),
                   ("FIXED_INCOME", 0), ("FOREX", 0), ("INDEX", 0)] }
  let s := st.accounts.foldl (process_account st.positions) init
  let total_value := s.total_equity + s.total_cash
  let cash_allocation :=
    if total_value > 0 then quantize2 (s.total_cash / total_value * 100) else 0
  let equity_allocation :=
    if total_value > 0 then quantize2 (s.total_equity / total_value * 100) else 0
  let asset_allocation :=
    (s.by_asset.filter (fun p => decide (0 < total_value ∧ 0 < p.2))).map
      (fun p => (p.1, quantize2 (p.2 / total_value * 100)))
  { total_value := total_value,
    total_equity := s.total_equity,
    total_cash := s.total_cash,
    cash_allocation := cash_allocation,
    equity_allocation := equity_allocation,
    positions_by_symbol := s.by_symbol,
    asset_allocation := asset_allocation,
    open_orders := (st.orders.filter (fun p => decide (p.2.status = Status.working))).length,
    filled_orders := (st.orders.filter (fun p => decide (p.2.status = Status.filled))).length,
    total_orders := st.orders.length,
    total_executions := st.executions.length }

/-- `PortfolioManager.get_portfolio_summary`: refresh positions first when
any account is monitored (per-account errors are swallowed inside the
refresh), then compute the summary. -/
def get_portfolio_summary (fetch : String → Except Unit Account) (st : PMState) :
    PortfolioSummary :=
  let st' := if st.monitored_accounts = [] then st else refresh_positions fetch st
  compute_summary st'

/- ## Concrete instances used by counterexamples and witnesses -/

/-- The spec's scenario position: symbol AAPL, quantity 10, average price
100.00, snapshot market value 1500.00. -/
def aaplPosition : Position :=
  { instrument := some
      { symbol := some (some "AAPL"), root := none, description := none,
        cusip := none, asset_type := some "EQUITY", type := none, last_price := none },
    long_quantity := some 10, short_quantity := some 0,
    average_price := some 100, market_value := some 1500 }

/-- The spec's scenario account A, holding only the AAPL position. -/
def scenarioAccount : Account :=
  { securities_account := some
      { type := some "CASH", current_balances := none,
        positions := some [aaplPosition] } }

/-- Transport for the scenario: account "A" resolves to `scenarioAccount`. -/
def scenario_fetch : String → Except Unit Account :=
  fun a => if a = "A" then Except.ok scenarioAccount else Except.error ()

/-- The ledger right after `add_account "A"` in the scenario. -/
def scenarioState : PMState :=
  match add_account scenario_fetch (initState false) "A" with
  | (Except.ok s, _) => s
  | _ => initState false

/-- The summary the scenario produces. -/
def scenario_summary : PortfolioSummary :=
  get_portfolio_summary scenario_fetch scenarioState

/-- A position whose gain/loss percent is not representable at two decimal
places: quantity 1, average price 64, market value 65, so the percent is
100/64 = 1.5625. -/
def xyzPosition : Position :=
  { instrument := some
      { symbol := some (some "XYZ"), root := none, description := none,
        cusip := none, asset_type := some "EQUITY", type := none, last_price := none },
    long_quantity := some 1, short_quantity := some 0,
    average_price := some 64, market_value := some 65 }

/-- Account B holding only the XYZ position. -/
def quantAccount : Account :=
  { securities_account := some
      { type := some "CASH", current_balances := none,
        positions := some [xyzPosition] } }

/-- Transport resolving account "B" to `quantAccount`. -/
def quant_fetch : String → Except Unit Account :=
  fun a => if a = "B" then Except.ok quantAccount else Except.error ()

/-- The ledger right after `add_account "B"`. -/
def quantState : PMState :=
  match add_account quant_fetch (initState false) "B" with
  | (Except.ok s, _) => s
  | _ => initState false

/-- The summary for account B. -/
def quant_summary : PortfolioSummary :=
  get_portfolio_summary quant_fetch quantState

/-- A stored order already in the terminal status FILLED. -/
def orderFilled1 : Order :=
  { order_id := 1, status := Status.filled, order_type := "LIMIT",
    quantity := 5, order_activity_collection := [] }

/-- The same order as the venue could report it on a later tick, with a
different status. -/
def orderCanceled1 : Order :=
  { orderFilled1 with status := Status.canceled }

/-- A ledger tracking `orderFilled1` with one registered status callback. -/
def terminalState : PMState :=
  { initState false with
    orders := [(1, orderFilled1)],
    order_callbacks := [(1, [7])],
    monitored_orders := [1],
    monitored_accounts := ["A"],
    monitoring := true }

/-- An execution activity with two legs. -/
def demoActivity : OrderActivity :=
  { activity_type := "EXECUTION", activityId := 11,
    execution_legs := [{ legId := 1, price := 10, quantity := 3, time := 100 },
                       { legId := 2, price := 11, quantity := 2, time := 101 }] }

/-- A working order as previously stored. -/
def orderWorking2 : Order :=
  { order_id := 2, status := Status.working, order_type := "MARKET",
    quantity := 5, order_activity_collection := [] }

/-- The same order as re-fetched, now filled with execution activity. -/
def orderExec2 : Order :=
  { orderWorking2 with
    status := Status.filled,
    order_activity_collection := [demoActivity] }

/-- A ledger tracking `orderWorking2`. -/
def execState : PMState :=
  { initState false with
    orders := [(2, orderWorking2)],
    monitored_orders := [2],
    monitored_accounts := ["A"],
    monitoring := true }

/-- A position stored under symbol OLD in an earlier snapshot. -/
def oldPosition : Position :=
  { instrument := some
      { symbol := some (some "OLD"), root := none, description := none,
        cusip := none, asset_type := some "EQUITY", type := none, last_price := none },
    long_quantity := some 1, short_quantity := some 0,
    average_price := some 1, market_value := some 1 }

/-- A ledger tracking accounts "A" (holding OLD) and "B" (empty). -/
def refreshState : PMState :=
  { initState false with
    accounts := [("A", scenarioAccount), ("B", quantAccount)],
    positions := [("A", [("OLD", oldPosition)]), ("B", [])],
    monitored_accounts := ["A", "B"] }

/-- A refresh in which account A's snapshot succeeds (holding only AAPL)
while account B's fetch raises. -/
def mixed_fetch : String → Except Unit Account :=
  fun a => if a = "A" then Except.ok scenarioAccount else Except.error ()

/-- An order the venue's recent-order search can match. -/
def recentOrder9 : Order :=
  { order_id := 9, status := Status.working, order_type := "LIMIT",
    quantity := 5, order_activity_collection := [] }

namespace DemoStream

/-- A one-record content list for the dispatch demo. -/
def demoContent : Streaming.Content := [[("1", "187.3")]]

/-- A data frame for service QUOTE. -/
def demoFrame : Streaming.DataFrame := { service := "QUOTE", content := demoContent }

/-- A callback that raises on every delivery. -/
def badCb : Streaming.Callback := { cbId := 7, run := fun _ => Except.error "boom" }

/-- A callback that succeeds on every delivery. -/
def goodCb : Streaming.Callback := { cbId := 8, run := fun _ => Except.ok () }

/-- Both callbacks registered for QUOTE, the raising one first. -/
def demoCbMap : List (String × List Streaming.Callback) := [("QUOTE", [badCb, goodCb])]

end DemoStream

end Portfolio

/- ## Association-list lemmas -/

section AListLemmas

variable {α : Type} {β : Type} [DecidableEq α]

theorem alookup_ainsert_self (m : List (α × β)) (k : α) (v : β) :
    alookup (ainsert m k v) k = some v := by
  induction m with
  | nil => simp [ainsert, alookup]
  | cons p t ih =>
    obtain ⟨a, b⟩ := p
    by_cases h : a = k
    · subst h
      simp [ainsert, alookup]
    · simp [ainsert, alookup, h, ih]

theorem alookup_ainsert_ne (m : List (α × β)) (k j : α) (v : β) (h : k ≠ j) :
    alookup (ainsert m k v) j = alookup m j := by
  induction m with
  | nil => simp [ainsert, alookup, h]
  | cons p t ih =>
    obtain ⟨a, b⟩ := p
    by_cases hak : a = k
    · subst hak
      simp [ainsert, alookup, h]
    · simp [ainsert, alookup, hak]
      by_cases haj : a = j
      · simp [haj]
      · simp [haj, ih]

theorem mem_akeys_ainsert (m : List (α × β)) (k : α) (v : β) (x : α) :
    x ∈ akeys (ainsert m k v) ↔ x ∈ akeys m ∨ x = k := by
  induction m with
  | nil => simp [ainsert, akeys, eq_comm]
  | cons p t ih =>
    obtain ⟨a, b⟩ := p
    by_cases hak : a = k
    · subst hak
      simp [ainsert, akeys]
      tauto
    · simp [ainsert, akeys, hak] at ih ⊢
      tauto

theorem akeys_ainsert_of_mem (m : List (α × β)) (k : α) (v : β)
    (h : k ∈ akeys m) : akeys (ainsert m k v) = akeys m := by
  induction m with
  | nil => simp [akeys] at h
  | cons p t ih =>
    obtain ⟨a, b⟩ := p
    have hcons : akeys ((a, b) :: t) = a :: akeys t := rfl
    by_cases hak : a = k
    · subst hak
      simp [ainsert, akeys]
    · rw [hcons] at h
      rcases List.mem_cons.mp h with h1 | h2
      · exact absurd h1.symm hak
      · have hstep : ainsert ((a, b) :: t) k v = (a, b) :: ainsert t k v := by
          simp [ainsert, hak]
        rw [hstep]
        have hmap : akeys ((a, b) :: ainsert t k v) = a :: akeys (ainsert t k v) := rfl
        rw [hmap, hcons, ih h2]

theorem nodup_akeys_ainsert (m : List (α × β)) (k : α) (v : β)
    (h : (akeys m).Nodup) : (akeys (ainsert m k v)).Nodup := by
  induction m with
  | nil => simp [ainsert, akeys]
  | cons p t ih =>
    obtain ⟨a, b⟩ := p
    have hcons : akeys ((a, b) :: t) = a :: akeys t := rfl
    rw [hcons] at h
    have hterm := List.nodup_cons.mp h
    by_cases hak : a = k
    · subst hak
      have hstep : ainsert ((a, b) :: t) a v = (a, v) :: t := by
        simp [ainsert]
      rw [hstep]
      exact h
    · have hstep : ainsert ((a, b) :: t) k v = (a, b) :: ainsert t k v := by
        simp [ainsert, hak]
      rw [hstep]
      have hmap : akeys ((a, b) :: ainsert t k v) = a :: akeys (ainsert t k v) := rfl
      rw [hmap]
      refine List.nodup_cons.mpr ⟨?_, ih hterm.2⟩
      intro hx
      rcases (mem_akeys_ainsert t k v a).mp hx with hmem | heq
      · exact hterm.1 hmem
      · exact hak heq

theorem alookup_afoldIns (m : List (α × β)) (ps : List (α × β)) (k : α) :
    alookup (afoldIns m ps) k =
      match lastVal ps k with
      | some v => some v
      | none => alookup m k := by
  induction ps generalizing m with
  | nil => simp [afoldIns, lastVal]
  | cons p t ih =>
    obtain ⟨a, b⟩ := p
    have step : afoldIns m ((a, b) :: t) = afoldIns (ainsert m a b) t := rfl
    rw [step, ih]
    cases hlv : lastVal t k with
    | some v => simp [lastVal, hlv]
    | none =>
      by_cases hak : a = k
      · subst hak
        simp [lastVal, hlv, alookup_ainsert_self]
      · simp [lastVal, hlv, hak, alookup_ainsert_ne m a k b hak]

theorem mem_akeys_afoldIns (m : List (α × β)) (ps : List (α × β)) (x : α) :
    x ∈ akeys (afoldIns m ps) ↔ x ∈ akeys m ∨ x ∈ ps.map Prod.fst := by
  induction ps generalizing m with
  | nil => simp [afoldIns]
  | cons p t ih =>
    obtain ⟨a, b⟩ := p
    have step : afoldIns m ((a, b) :: t) = afoldIns (ainsert m a b) t := rfl
    rw [step, ih]
    simp [mem_akeys_ainsert]
    tauto

theorem akeys_afoldIns_of_subset (m : List (α × β)) (ps : List (α × β))
    (h : ∀ p ∈ ps, p.1 ∈ akeys m) : akeys (afoldIns m ps) = akeys m := by
  induction ps generalizing m with
  | nil => simp [afoldIns]
  | cons p t ih =>
    obtain ⟨a, b⟩ := p
    have step : afoldIns m ((a, b) :: t) = afoldIns (ainsert m a b) t := rfl
    have ha : a ∈ akeys m := h (a, b) (by simp)
    rw [step, ih]
    · exact akeys_ainsert_of_mem m a b ha
    · intro q hq
      rw [akeys_ainsert_of_mem m a b ha]
      exact h q (by simp [hq])

theorem nodup_akeys_afoldIns (m : List (α × β)) (ps : List (α × β))
    (h : (akeys m).Nodup) : (akeys (afoldIns m ps)).Nodup := by
  induction ps generalizing m with
  | nil => simpa [afoldIns]
  | cons p t ih =>
    obtain ⟨a, b⟩ := p
    have step : afoldIns m ((a, b) :: t) = afoldIns (ainsert m a b) t := rfl
    rw [step]
    exact ih _ (nodup_akeys_ainsert m a b h)

theorem alookup_afoldIns_idem (m : List (α × β)) (ps : List (α × β)) (k : α) :
    alookup (afoldIns (afoldIns m ps) ps) k = alookup (afoldIns m ps) k := by
  rw [alookup_afoldIns, alookup_afoldIns]
  cases hlv : lastVal ps k <;> simp [hlv]

theorem akeys_afoldIns_idem (m : List (α × β)) (ps : List (α × β)) :
    akeys (afoldIns (afoldIns m ps) ps) = akeys (afoldIns m ps) := by
  apply akeys_afoldIns_of_subset
  intro p hp
  exact (mem_akeys_afoldIns m ps p.1).mpr (Or.inr (List.mem_map_of_mem Prod.fst hp))

end AListLemmas

/- ## Streaming theorems -/

namespace Streaming

theorem dispatch_append_assoc (a b c : DispatchLog) :
    (a.append b).append c = a.append (b.append c) := by
  simp [DispatchLog.append]

theorem dispatch_empty_append (a : DispatchLog) :
    DispatchLog.append { invoked := [], errors := [] } a = a := by
  simp [DispatchLog.append]

theorem dispatch_append_empty (a : DispatchLog) :
    a.append { invoked := [], errors := [] } = a := by
  simp [DispatchLog.append]

theorem foldl_dispatch (cbmap : List (String × List Callback))
    (frames : List DataFrame) (L : DispatchLog) :
    frames.foldl (fun log f => log.append (dispatchFrame cbmap f)) L
      = L.append (handle_data cbmap frames) := by
  induction frames generalizing L with
  | nil => simp [handle_data, dispatch_append_empty]
  | cons f t ih =>
    have hl : (f :: t).foldl (fun log g => log.append (dispatchFrame cbmap g)) L
        = t.foldl (fun log g => log.append (dispatchFrame cbmap g))
            (L.append (dispatchFrame cbmap f)) := rfl
    have hr : handle_data cbmap (f :: t)
        = t.foldl (fun log g => log.append (dispatchFrame cbmap g))
            (DispatchLog.append { invoked := [], errors := [] } (dispatchFrame cbmap f)) := rfl
    rw [hl, ih, hr, ih, dispatch_empty_append, dispatch_append_assoc]

theorem handle_data_append (cbmap : List (String × List Callback))
    (xs ys : List DataFrame) :
    handle_data cbmap (xs ++ ys)
      = (handle_data cbmap xs).append (handle_data cbmap ys) := by
  have h : handle_data cbmap (xs ++ ys)
      = ys.foldl (fun log f => log.append (dispatchFrame cbmap f)) (handle_data cbmap xs) := by
    simp [handle_data, List.foldl_append]
  rw [h, foldl_dispatch]

theorem handle_data_cons (cbmap : List (String × List Callback))
    (f : DataFrame) (t : List DataFrame) :
    handle_data cbmap (f :: t)
      = (dispatchFrame cbmap f).append (handle_data cbmap t) := by
  have h : handle_data cbmap (f :: t)
      = t.foldl (fun log g => log.append (dispatchFrame cbmap g))
          (DispatchLog.append { invoked := [], errors := [] } (dispatchFrame cbmap f)) := rfl
  rw [h, foldl_dispatch, dispatch_empty_append]

end Streaming

theorem reconnect_tick_requests_empty (ok : Bool) (c : Streaming.ClientState) :
    (Streaming.reconnect_tick ok c).2 = [] := by
  unfold Streaming.reconnect_tick
  cases hs : c.streamer with
  | none =>
    cases ok <;>
      simp [Streaming.restore_subscriptions, Streaming.freshStreamer]
  | some s =>
    cases hb : s.is_connected <;> cases ok <;>
      simp [hb, Streaming.restore_subscriptions, Streaming.freshStreamer]

/- ## Portfolio lemmas -/

namespace Portfolio

theorem afoldIns_append {α β : Type} [DecidableEq α]
    (m : List (α × β)) (xs ys : List (α × β)) :
    afoldIns m (xs ++ ys) = afoldIns (afoldIns m xs) ys := by
  simp [afoldIns, List.foldl_append]

theorem handle_execution_eq (order : Order) (a : OrderActivity)
    (execs : List (String × ExecutionReport)) :
    handle_execution order a execs
      = afoldIns execs (a.execution_legs.map (fun leg =>
          let r := ExecutionReport.from_activity order.order_id a leg
          (r.execution_id, r))) := by
  simp [handle_execution, afoldIns, List.foldl_map]

theorem exec_fold_eq (order : Order) (acts : List OrderActivity)
    (execs : List (String × ExecutionReport)) :
    acts.foldl
      (fun e a => if a.activity_type = "EXECUTION" then handle_execution order a e else e)
      execs
    = afoldIns execs
        ((acts.filter (fun a => a.activity_type = "EXECUTION")).flatMap
          (fun a => a.execution_legs.map (fun leg =>
            let r := ExecutionReport.from_activity order.order_id a leg
            (r.execution_id, r)))) := by
  induction acts generalizing execs with
  | nil => simp [afoldIns]
  | cons a t ih =>
    by_cases h : a.activity_type = "EXECUTION"
    · rw [List.foldl_cons, if_pos h, ih (handle_execution order a execs),
        handle_execution_eq]
      have hfil : (a :: t).filter (fun x => x.activity_type = "EXECUTION")
          = a :: t.filter (fun x => x.activity_type = "EXECUTION") := by
        simp [List.filter_cons, h]
      rw [hfil, List.flatMap_cons, afoldIns_append]
    · rw [List.foldl_cons, if_neg h]
      have hfil : (a :: t).filter (fun x => x.activity_type = "EXECUTION")
          = t.filter (fun x => x.activity_type = "EXECUTION") := by
        simp [List.filter_cons, h]
      rw [hfil]
      exact ih execs

theorem update_order_executions (fetchedOrder : Order) (st : PMState) (oid : Int) :
    (update_order (Except.ok fetchedOrder) st oid).state.executions
      = afoldIns st.executions (execution_pairs fetchedOrder) := by
  have h : (update_order (Except.ok fetchedOrder) st oid).state.executions
      = fetchedOrder.order_activity_collection.foldl
          (fun e a =>
            if a.activity_type = "EXECUTION" then handle_execution fetchedOrder a e else e)
          st.executions := rfl
  rw [h, exec_fold_eq]
  rfl

theorem mem_akeys_build_fold (ps : List Position)
    (m : List (String × Position)) (x : String) :
    x ∈ akeys (ps.foldl
        (fun m p => match good_symbol p with | some s => ainsert m s p | none => m) m)
      ↔ x ∈ akeys m ∨ x ∈ ps.filterMap good_symbol := by
  induction ps generalizing m with
  | nil => simp
  | cons p t ih =>
    cases hg : good_symbol p with
    | none => simp [hg, ih, List.filterMap_cons]
    | some s =>
      simp only [List.foldl_cons, hg, List.filterMap_cons]
      rw [ih]
      simp [mem_akeys_ainsert]
      tauto

theorem mem_akeys_build_position_map (ps : List Position) (x : String) :
    x ∈ akeys (build_position_map ps) ↔ x ∈ ps.filterMap good_symbol := by
  have h : build_position_map ps
      = ps.foldl
          (fun m p => match good_symbol p with | some s => ainsert m s p | none => m)
          [] := rfl
  rw [h, mem_akeys_build_fold]
  simp [akeys]

theorem refresh_fold_preserve (fetch : String → Except Unit Account)
    (ks : List String) (st : PMState) (a : String) (ha : a ∉ ks) :
    alookup (refresh_fold fetch ks st).accounts a = alookup st.accounts a ∧
    alookup (refresh_fold fetch ks st).positions a = alookup st.positions a := by
  induction ks generalizing st with
  | nil => exact ⟨rfl, rfl⟩
  | cons k t ih =>
    have hka : k ≠ a := fun h => ha (h ▸ List.mem_cons_self k t)
    have hta : a ∉ t := fun h => ha (List.mem_cons_of_mem k h)
    have hstep : refresh_fold fetch (k :: t) st
        = refresh_fold fetch t (refresh_one fetch st k) := rfl
    rw [hstep]
    have hrest := ih (refresh_one fetch st k) hta
    cases hfk : fetch k with
    | error u =>
      have hone : refresh_one fetch st k = st := by simp [refresh_one, hfk]
      rw [hone] at hrest
      rw [hone]
      exact hrest
    | ok acct =>
      have hacc : alookup (refresh_one fetch st k).accounts a = alookup st.accounts a := by
        simp [refresh_one, hfk, alookup_ainsert_ne _ _ _ _ hka]
      have hpos : alookup (refresh_one fetch st k).positions a = alookup st.positions a := by
        simp [refresh_one, hfk, alookup_ainsert_ne _ _ _ _ hka]
      exact ⟨hrest.1.trans hacc, hrest.2.trans hpos⟩

theorem refresh_fold_error_preserve (fetch : String → Except Unit Account)
    (ks : List String) (st : PMState) (a : String) (u : Unit)
    (hf : fetch a = Except.error u) :
    alookup (refresh_fold fetch ks st).accounts a = alookup st.accounts a ∧
    alookup (refresh_fold fetch ks st).positions a = alookup st.positions a := by
  induction ks generalizing st with
  | nil => exact ⟨rfl, rfl⟩
  | cons k t ih =>
    have hstep : refresh_fold fetch (k :: t) st
        = refresh_fold fetch t (refresh_one fetch st k) := rfl
    rw [hstep]
    have hrest := ih (refresh_one fetch st k)
    by_cases hka : k = a
    · subst hka
      have hone : refresh_one fetch st k = st := by simp [refresh_one, hf]
      rw [hone] at hrest
      rw [hone]
      exact hrest
    · cases hfk : fetch k with
      | error v =>
        have hone : refresh_one fetch st k = st := by simp [refresh_one, hfk]
        rw [hone] at hrest
        rw [hone]
        exact hrest
      | ok acct =>
        have hacc : alookup (refresh_one fetch st k).accounts a = alookup st.accounts a := by
          simp [refresh_one, hfk, alookup_ainsert_ne _ _ _ _ hka]
        have hpos : alookup (refresh_one fetch st k).positions a = alookup st.positions a := by
          simp [refresh_one, hfk, alookup_ainsert_ne _ _ _ _ hka]
        exact ⟨hrest.1.trans hacc, hrest.2.trans hpos⟩

theorem refresh_fold_lookup_ok (fetch : String → Except Unit Account)
    (ks : List String) (st : PMState) (a : String) (acct : Account)
    (hnd : ks.Nodup) (ha : a ∈ ks) (hf : fetch a = Except.ok acct) :
    alookup (refresh_fold fetch ks st).accounts a = some acct ∧
    alookup (refresh_fold fetch ks st).positions a
      = some (build_position_map (positions_list_of acct)) := by
  induction ks generalizing st with
  | nil => cases ha
  | cons k t ih =>
    have hstep : refresh_fold fetch (k :: t) st
        = refresh_fold fetch t (refresh_one fetch st k) := rfl
    rw [hstep]
    rcases List.mem_cons.mp ha with h1 | h2
    · subst h1
      have hat : a ∉ t := (List.nodup_cons.mp hnd).1
      have hone : refresh_one fetch st a
          = { st with
              accounts := ainsert st.accounts a acct,
              positions := ainsert st.positions a
                (build_position_map (positions_list_of acct)) } := by
        simp [refresh_one, hf]
      have hrest := refresh_fold_preserve fetch t (refresh_one fetch st a) a hat
      rw [hone] at hrest ⊢
      refine ⟨hrest.1.trans ?_, hrest.2.trans ?_⟩
      · exact alookup_ainsert_self st.accounts a acct
      · exact alookup_ainsert_self st.positions a _
    · exact ih (refresh_one fetch st k) (List.nodup_cons.mp hnd).2 h2

end Portfolio

/-- C1 (code bug, evaluated at the failing input): before the drop the
supervisor's connection tracked the QUOTE subscription for AAPL with fields
0 and 1, yet the reconnect pass — which replaces the streamer with a freshly
constructed one and replays from the new streamer's (empty) subscription
map — sends no SUBS command at all, instead of exactly one re-establishing
that symbol and field set. -/
theorem reconnect_drops_tracked_subscriptions :
    Streaming.dropped_client_subs
        = [("QUOTE", { symbols := ["AAPL"], fields := [0, 1] })] ∧
    (Streaming.reconnect_tick true Streaming.dropped_client).2 = [] := by
  exact ⟨rfl, rfl⟩

/-- C8: for every inbound data-frame list and every frame in it, every
callback registered for that frame's service is invoked with that frame's
content, and a callback that raises has its exception caught into the error
log — `handle_data` is total, so neither the rest of the service's callbacks
nor the processing of later frames is lost. -/
theorem handle_data_isolates_callbacks
    (cbmap : List (String × List Streaming.Callback))
    (frames pre post : List Streaming.DataFrame) (f : Streaming.DataFrame)
    (cbs : List Streaming.Callback)
    (hf : frames = pre ++ f :: post)
    (hcb : alookup cbmap f.service = some cbs) :
    (∀ cb ∈ cbs,
      (cb.cbId, f.service, f.content) ∈ (Streaming.handle_data cbmap frames).invoked) ∧
    (∀ cb ∈ cbs, ∀ e, cb.run f.content = Except.error e →
      e ∈ (Streaming.handle_data cbmap frames).errors) := by
  subst hf
  rw [Streaming.handle_data_append, Streaming.handle_data_cons]
  constructor
  · intro cb hcbmem
    simp only [Streaming.DispatchLog.append, List.mem_append]
    refine Or.inr (Or.inl ?_)
    simp only [Streaming.dispatchFrame, hcb]
    exact List.mem_map.mpr ⟨cb, hcbmem, rfl⟩
  · intro cb hcbmem e hrun
    simp only [Streaming.DispatchLog.append, List.mem_append]
    refine Or.inr (Or.inl ?_)
    simp only [Streaming.dispatchFrame, hcb]
    refine List.mem_filterMap.mpr ⟨cb, hcbmem, ?_⟩
    simp [hrun]

/-- C8 witness: with a raising callback and a succeeding callback both
registered for QUOTE, a QUOTE frame reaches both and the raised message is
logged. -/
theorem handle_data_isolates_callbacks_witness :
    ((8, "QUOTE", Portfolio.DemoStream.demoContent)
        ∈ (Streaming.handle_data Portfolio.DemoStream.demoCbMap
            [Portfolio.DemoStream.demoFrame]).invoked) ∧
    ("boom" ∈ (Streaming.handle_data Portfolio.DemoStream.demoCbMap
        [Portfolio.DemoStream.demoFrame]).errors) := by
  have h := handle_data_isolates_callbacks Portfolio.DemoStream.demoCbMap
    [Portfolio.DemoStream.demoFrame] [] [] Portfolio.DemoStream.demoFrame
    [Portfolio.DemoStream.badCb, Portfolio.DemoStream.goodCb] rfl rfl
  exact ⟨h.1 Portfolio.DemoStream.goodCb (by simp),
         h.2 Portfolio.DemoStream.badCb (by simp) "boom" rfl⟩

/- ## Portfolio claim theorems -/

namespace Portfolio

/-- C9: for an account number that was never added, `place_order` raises a
`ValueError` before any Transport call (`calls = []`) and the ledger state —
in particular its accounts, orders and executions maps — is returned
untouched. -/
theorem place_order_unknown_account (st : PMState) (acct : String) (order : Order)
    (is_paper_acct : String → Bool) (recent : List Order)
    (h : alookup st.accounts acct = none) :
    place_order st acct order is_paper_acct recent
      = { state := st, calls := [], warned := false,
          result := Except.error "Account not in portfolio" } := by
  simp [place_order, h]

/-- C9 witness: placing an order against the untracked account GHOST on the
empty ledger raises without submitting and leaves the ledger unchanged. -/
theorem place_order_unknown_account_witness :
    alookup (initState false).accounts "GHOST" = none ∧
    place_order (initState false) "GHOST" orderWorking2 (fun _ => false) []
      = { state := initState false, calls := [], warned := false,
          result := Except.error "Account not in portfolio" } :=
  ⟨rfl, place_order_unknown_account (initState false) "GHOST" orderWorking2
    (fun _ => false) [] rfl⟩

/-- C10: `add_account` on an already-tracked account number returns without
contacting Transport (flag `false`) and with the state — accounts map,
position maps, monitored-accounts set — exactly unchanged, for every
possible Transport behaviour. -/
theorem add_account_already_tracked (fetch : String → Except Unit Account)
    (st : PMState) (acct : String)
    (h : (alookup st.accounts acct).isSome = true) :
    add_account fetch st acct = (Except.ok st, false) := by
  simp [add_account, h]

/-- C10 witness: re-adding account "A" to the scenario ledger with a
Transport that would fail every call still returns the unchanged state
without fetching. -/
theorem add_account_already_tracked_witness :
    (alookup scenarioState.accounts "A").isSome = true ∧
    add_account (fun _ => Except.error ()) scenarioState "A"
      = (Except.ok scenarioState, false) :=
  ⟨by decide,
   add_account_already_tracked (fun _ => Except.error ()) scenarioState "A" (by decide)⟩

/-- C6: once the order is submitted, when the recent-order search (first
entry matching on order type and quantity) finds nothing, `place_order`
returns the sentinel id 0 without raising and logs a warning; when it finds
a match, the first matching entry's order id is returned. -/
theorem place_order_sentinel_on_no_match (st : PMState) (acct : String)
    (order : Order) (is_paper_acct : String → Bool) (recent : List Order)
    (hacct : (alookup st.accounts acct).isSome = true)
    (hpaper : st.is_paper_trading_client = false) :
    (recent.find? (fun o =>
        o.order_type == order.order_type && o.quantity == order.quantity) = none →
      place_order st acct order is_paper_acct recent
        = { state := st,
            calls := [ClientCall.placeOrder acct, ClientCall.getOrders acct],
            warned := true, result := Except.ok 0 }) ∧
    (∀ placed, recent.find? (fun o =>
        o.order_type == order.order_type && o.quantity == order.quantity) = some placed →
      (place_order st acct order is_paper_acct recent).result = Except.ok placed.order_id ∧
      (place_order st acct order is_paper_acct recent).warned = false) := by
  obtain ⟨v, hv⟩ := Option.isSome_iff_exists.mp hacct
  constructor
  · intro hfind
    simp [place_order, hv, hpaper, hfind]
  · intro placed hfind
    simp [place_order, hv, hpaper, hfind]

/-- C6 witness: in the scenario ledger the recent-order search over an empty
order history finds nothing, and the call returns the sentinel 0 with a
warning and without raising. -/
theorem place_order_sentinel_on_no_match_witness :
    (alookup scenarioState.accounts "A").isSome = true ∧
    place_order scenarioState "A" orderWorking2 (fun _ => false) []
      = { state := scenarioState,
          calls := [ClientCall.placeOrder "A", ClientCall.getOrders "A"],
          warned := true, result := Except.ok 0 } :=
  ⟨by decide,
   (place_order_sentinel_on_no_match scenarioState "A" orderWorking2
      (fun _ => false) [] (by decide) rfl).1 rfl⟩

/-- C2 counterexample: the stored order 1 has the terminal status FILLED,
yet when the monitoring fetch reports CANCELED, `_update_order` records the
FILLED-to-CANCELED transition and re-fires the registered status callback —
the code has no terminal-status guard. -/
theorem terminal_status_transition_refires :
    orderFilled1.status = Status.filled ∧
    alookup terminalState.orders 1 = some orderFilled1 ∧
    (update_order (Except.ok orderCanceled1) terminalState 1).recorded
      = some (Status.filled, Status.canceled) ∧
    (update_order (Except.ok orderCanceled1) terminalState 1).fired
      = [(7, 1, Status.canceled)] := by
  exact ⟨rfl, rfl, rfl, rfl⟩

/-- C2 (amended): a monitoring update of a tracked order records a status
transition and fires the order's callbacks exactly when the freshly fetched
status differs from the stored one — regardless of whether the stored status
is terminal; in particular, while the venue keeps reporting the same
(terminal or not) status, no transition is recorded and no callback
re-fires. -/
theorem update_order_transition_iff_status_differs (st : PMState) (oid : Int)
    (stored fetched : Order)
    (h : alookup st.orders oid = some stored) :
    ((update_order (Except.ok fetched) st oid).recorded
        = if fetched.status = stored.status then none
          else some (stored.status, fetched.status)) ∧
    ((update_order (Except.ok fetched) st oid).fired
        = if fetched.status = stored.status then []
          else fire_status_callbacks st fetched) := by
  by_cases hst : fetched.status = stored.status
  · constructor <;> simp [update_order, h, hst]
  · constructor <;> simp [update_order, h, hst]

/-- C2 witness: re-fetching the terminally stored order 1 with the same
FILLED status records no transition and fires no callback. -/
theorem update_order_transition_iff_status_differs_witness :
    alookup terminalState.orders 1 = some orderFilled1 ∧
    (update_order (Except.ok orderFilled1) terminalState 1).recorded = none ∧
    (update_order (Except.ok orderFilled1) terminalState 1).fired = [] := by
  refine ⟨rfl, ?_, ?_⟩
  · have h := (update_order_transition_iff_status_differs terminalState 1
      orderFilled1 orderFilled1 rfl).1
    simpa using h
  · have h := (update_order_transition_iff_status_differs terminalState 1
      orderFilled1 orderFilled1 rfl).2
    simpa using h

/-- C3: processing the same fetched order (and hence the same execution
activity) twice through the monitoring loop is idempotent on the executions
map — every execution id resolves to the same record after the second pass
as after the first, the stored key set is unchanged, and the map keeps at
most one record per execution id. -/
theorem monitor_execution_idempotent (st : PMState) (oid : Int) (order : Order)
    (hnd : (akeys st.executions).Nodup) :
    (∀ k,
      alookup (update_order (Except.ok order)
          ((update_order (Except.ok order) st oid).state) oid).state.executions k
        = alookup (update_order (Except.ok order) st oid).state.executions k) ∧
    akeys (update_order (Except.ok order)
        ((update_order (Except.ok order) st oid).state) oid).state.executions
      = akeys (update_order (Except.ok order) st oid).state.executions ∧
    (akeys (update_order (Except.ok order) st oid).state.executions).Nodup ∧
    (akeys (update_order (Except.ok order)
        ((update_order (Except.ok order) st oid).state) oid).state.executions).Nodup := by
  rw [update_order_executions order ((update_order (Except.ok order) st oid).state) oid,
      update_order_executions order st oid]
  refine ⟨fun k => alookup_afoldIns_idem _ _ k, akeys_afoldIns_idem _ _,
          nodup_akeys_afoldIns _ _ hnd, ?_⟩
  exact nodup_akeys_afoldIns _ _ (nodup_akeys_afoldIns _ _ hnd)

/-- C3 witness: processing `orderExec2`'s two-leg execution activity twice
leaves the executions map with the same record under id "2-11-1" and the
same key set, starting from the duplicate-free tracked ledger. -/
theorem monitor_execution_idempotent_witness :
    (akeys execState.executions).Nodup ∧
    alookup (update_order (Except.ok orderExec2)
        ((update_order (Except.ok orderExec2) execState 2).state) 2).state.executions "2-11-1"
      = alookup (update_order (Except.ok orderExec2) execState 2).state.executions "2-11-1" ∧
    akeys (update_order (Except.ok orderExec2)
        ((update_order (Except.ok orderExec2) execState 2).state) 2).state.executions
      = akeys (update_order (Except.ok orderExec2) execState 2).state.executions :=
  ⟨by decide,
   (monitor_execution_idempotent execState 2 orderExec2 (by decide)).1 "2-11-1",
   (monitor_execution_idempotent execState 2 orderExec2 (by decide)).2.1⟩

/-- C4: after a `refresh_positions` whose snapshot fetch for a tracked
account succeeds, that account's position map is exactly the one rebuilt
from the new snapshot, and its key set is exactly the set of symbols
extracted from that snapshot — nothing from an earlier snapshot survives. -/
theorem refresh_replaces_position_map (fetch : String → Except Unit Account)
    (st : PMState) (a : String) (acct : Account)
    (hnd : (akeys st.accounts).Nodup)
    (ha : a ∈ akeys st.accounts)
    (hf : fetch a = Except.ok acct) :
    alookup (refresh_positions fetch st).positions a
      = some (build_position_map (positions_list_of acct)) ∧
    (∀ sym, sym ∈ akeys (build_position_map (positions_list_of acct))
        ↔ sym ∈ extracted_symbols acct) := by
  constructor
  · exact (refresh_fold_lookup_ok fetch (akeys st.accounts) st a acct hnd ha hf).2
  · intro sym
    exact mem_akeys_build_position_map (positions_list_of acct) sym

/-- C4 witness: with accounts A (previously holding OLD) and B tracked,
refreshing account A against the AAPL-only snapshot replaces its position
map wholesale, and AAPL is among the snapshot's extracted symbols. -/
theorem refresh_replaces_position_map_witness :
    (akeys refreshState.accounts).Nodup ∧
    alookup (refresh_positions mixed_fetch refreshState).positions "A"
      = some (build_position_map (positions_list_of scenarioAccount)) ∧
    ("AAPL" ∈ akeys (build_position_map (positions_list_of scenarioAccount))
      ↔ "AAPL" ∈ extracted_symbols scenarioAccount) :=
  ⟨by decide,
   (refresh_replaces_position_map mixed_fetch refreshState "A" scenarioAccount
      (by decide) (by decide) rfl).1,
   (refresh_replaces_position_map mixed_fetch refreshState "A" scenarioAccount
      (by decide) (by decide) rfl).2 "AAPL"⟩

/-- C7: when the per-account snapshot fetch inside `refresh_positions`
raises for a tracked account, the exception is swallowed and that account's
stored account entry and position map are left exactly as they were, while
every tracked account whose fetch succeeds is still refreshed. -/
theorem refresh_fetch_error_atomic (fetch : String → Except Unit Account)
    (st : PMState) (a : String) (u : Unit)
    (hnd : (akeys st.accounts).Nodup)
    (_ha : a ∈ akeys st.accounts)
    (hf : fetch a = Except.error u) :
    alookup (refresh_positions fetch st).accounts a = alookup st.accounts a ∧
    alookup (refresh_positions fetch st).positions a = alookup st.positions a ∧
    (∀ b acctB, b ∈ akeys st.accounts → fetch b = Except.ok acctB →
      alookup (refresh_positions fetch st).accounts b = some acctB ∧
      alookup (refresh_positions fetch st).positions b
        = some (build_position_map (positions_list_of acctB))) := by
  refine ⟨(refresh_fold_error_preserve fetch (akeys st.accounts) st a u hf).1,
          (refresh_fold_error_preserve fetch (akeys st.accounts) st a u hf).2, ?_⟩
  intro b acctB hb hfb
  exact refresh_fold_lookup_ok fetch (akeys st.accounts) st b acctB hnd hb hfb

/-- C7 witness: refreshing with a Transport that raises for account B and
succeeds for account A leaves B's account entry and position map exactly as
stored while A is still refreshed from its new snapshot. -/
theorem refresh_fetch_error_atomic_witness :
    mixed_fetch "B" = Except.error () ∧
    alookup (refresh_positions mixed_fetch refreshState).accounts "B"
      = alookup refreshState.accounts "B" ∧
    alookup (refresh_positions mixed_fetch refreshState).positions "B"
      = alookup refreshState.positions "B" ∧
    alookup (refresh_positions mixed_fetch refreshState).accounts "A"
      = some scenarioAccount :=
  ⟨rfl,
   (refresh_fetch_error_atomic mixed_fetch refreshState "B" () (by decide)
      (by decide) rfl).1,
   (refresh_fetch_error_atomic mixed_fetch refreshState "B" () (by decide)
      (by decide) rfl).2.1,
   ((refresh_fetch_error_atomic mixed_fetch refreshState "B" () (by decide)
      (by decide) rfl).2.2 "A" scenarioAccount (by decide) rfl).1⟩

/-- C5 counterexample: in the spec's own scenario (one position, quantity
10, average price 100.00, snapshot market value 1500.00) the reported
per-symbol gain/loss percent is 50 — gain over cost basis — not the claimed
33.33; and for a position with cost basis 64 and market value 65 the stored
percent is 25/16 = 1.5625, which is not quantized to two decimal places. -/
theorem summary_gain_loss_pct_counterexample :
    (alookup scenario_summary.positions_by_symbol "AAPL").map SymbolAgg.gain_loss_pct
      = some 50 ∧
    (50 : ℚ) ≠ 3333 / 100 ∧
    (alookup quant_summary.positions_by_symbol "XYZ").map SymbolAgg.gain_loss_pct
      = some (25 / 16) ∧
    quantize2 (25 / 16) ≠ (25 / 16 : ℚ) := by
  have hup : str_upper "EQUITY" = "EQUITY" := by decide
  refine ⟨?_, by norm_num, ?_, by norm_num [quantize2]⟩
  · simp [scenario_summary, get_portfolio_summary, refresh_positions, refresh_fold,
      refresh_one, scenario_fetch, compute_summary, process_account, process_position,
      position_market_value, extract_account_cash_balance, determine_asset_type,
      asset_type_mapping, scenarioState, add_account, initState, alookup, ainsert, akeys,
      build_position_map, positions_list_of, good_symbol, extract_symbol_from_position,
      emptyAgg, scenarioAccount, aaplPosition, hup]
    norm_num
  · simp [quant_summary, get_portfolio_summary, refresh_positions, refresh_fold,
      refresh_one, quant_fetch, compute_summary, process_account, process_position,
      position_market_value, extract_account_cash_balance, determine_asset_type,
      asset_type_mapping, quantState, add_account, initState, alookup, ainsert, akeys,
      build_position_map, positions_list_of, good_symbol, extract_symbol_from_position,
      emptyAgg, quantAccount, xyzPosition, hup]
    norm_num

/-- C5 (amended): `get_portfolio_summary` reports the per-symbol gain/loss
percent as gain over cost basis at full precision; for the spec's scenario
the per-symbol entry has gain_loss = 500.00 and gain_loss_pct = 50, and
total_equity includes the 1500.00 market value. -/
theorem summary_scenario_values :
    scenario_summary.total_equity = 1500 ∧
    (alookup scenario_summary.positions_by_symbol "AAPL").map SymbolAgg.gain_loss
      = some 500 ∧
    (alookup scenario_summary.positions_by_symbol "AAPL").map SymbolAgg.gain_loss_pct
      = some 50 ∧
    (alookup quant_summary.positions_by_symbol "XYZ").map SymbolAgg.gain_loss_pct
      = some (100 / 64) := by
  have hup : str_upper "EQUITY" = "EQUITY" := by decide
  refine ⟨?_, ?_, ?_, ?_⟩
  case _ =>
    simp [scenario_summary, get_portfolio_summary, refresh_positions, refresh_fold,
      refresh_one, scenario_fetch, compute_summary, process_account, process_position,
      position_market_value, extract_account_cash_balance, determine_asset_type,
      asset_type_mapping, scenarioState, add_account, initState, alookup, ainsert, akeys,
      build_position_map, positions_list_of, good_symbol, extract_symbol_from_position,
      emptyAgg, scenarioAccount, aaplPosition, hup]
    norm_num
  case _ =>
    simp [scenario_summary, get_portfolio_summary, refresh_positions, refresh_fold,
      refresh_one, scenario_fetch, compute_summary, process_account, process_position,
      position_market_value, extract_account_cash_balance, determine_asset_type,
      asset_type_mapping, scenarioState, add_account, initState, alookup, ainsert, akeys,
      build_position_map, positions_list_of, good_symbol, extract_symbol_from_position,
      emptyAgg, scenarioAccount, aaplPosition, hup]
    norm_num
  case _ =>
    simp [scenario_summary, get_portfolio_summary, refresh_positions, refresh_fold,
      refresh_one, scenario_fetch, compute_summary, process_account, process_position,
      position_market_value, extract_account_cash_balance, determine_asset_type,
      asset_type_mapping, scenarioState, add_account, initState, alookup, ainsert, akeys,
      build_position_map, positions_list_of, good_symbol, extract_symbol_from_position,
      emptyAgg, scenarioAccount, aaplPosition, hup]
    norm_num
  case _ =>
    simp [quant_summary, get_portfolio_summary, refresh_positions, refresh_fold,
      refresh_one, quant_fetch, compute_summary, process_account, process_position,
      position_market_value, extract_account_cash_balance, determine_asset_type,
      asset_type_mapping, quantState, add_account, initState, alookup, ainsert, akeys,
      build_position_map, positions_list_of, good_symbol, extract_symbol_from_position,
      emptyAgg, quantAccount, xyzPosition, hup]
    norm_num

end Portfolio

end SchwabTrader
